import Mathlib

/-!
Shallow embedding of the ESP32 motor tester sketch (`src/motor_tester.ino`)
and proofs about its control-state machine, DShot frame encoder, and timing
computations.

Conventions of the embedding:
* C `int` values become `Int`; the `uint16_t` packet arithmetic becomes `Nat`
  with explicit `% 65536` at the points where the C code truncates.
* The Arduino `String` globals stay `String`; the source's
  `protocol.startsWith("DSHOT")` is modelled by a character-list
  prefix test (`startsWithDSHOT`), which is extensionally the same test and
  evaluates inside the kernel.
* Side effects on the GPIO pin during frame transmission are modelled as an
  explicit trace of `Emission` events; the handler-level `digitalWrite(escPin,
  LOW)` calls are modelled by the `pinLevel` field of the state.
* Every HTTP handler returns its successor state together with the HTTP
  response it sends (`Resp.ok` for 200, `Resp.badRequest` for 400).
-/

namespace MotorTester

/-- Events emitted on the wire: a PWM pulse of the given width, a call of
`sendDShot` with the given raw value, or a `delay(1)` millisecond gap. -/
inductive Emission where
  | pwm (us : Int)
  | dshot (value : Int)
  | delayMs (n : Nat)
deriving DecidableEq, Repr

/-- The HTTP response a handler sends: `ok` for `200 {"status":...}`,
`badRequest` for a 400 error body. -/
inductive Resp where
  | ok
  | badRequest
deriving DecidableEq, Repr

/-- Models `String::startsWith("DSHOT")` from the source as a prefix test on
the character list of the string. -/
def startsWithDSHOT (s : String) : Bool :=
  "DSHOT".data.isPrefixOf s.data

/-- The global ESC control variables of the sketch (`escPin`, `protocol`,
`throttleValue`, `escArmed`, `direction`, `directionSupported`), plus the
last level the handlers explicitly wrote to the ESC pin. -/
structure EscState where
  escPin : Int
  protocol : String
  throttleValue : Int
  escArmed : Bool
  direction : String
  directionSupported : Bool
  pinLevel : Bool
deriving DecidableEq, Repr

/-- Arduino's `constrain(amt, low, high)` macro:
`(amt < low ? low : (amt > high ? high : amt))`. -/
def constrain (amt low high : Int) : Int :=
  if amt < low then low else if amt > high then high else amt

/-- `updateDirectionSupport()`: recomputes `directionSupported` from the
protocol name and forces `direction = "FORWARD"` when unsupported. -/
def updateDirectionSupport (s : EscState) : EscState :=
  let s := { s with directionSupported := startsWithDSHOT s.protocol }
  if s.directionSupported then s else { s with direction := "FORWARD" }

/-- The state after `setup()` on a first boot: defaults `escPin = 5`,
`protocol = "PWM"`, `throttleValue = 1000`, `escArmed = false`,
`direction = "FORWARD"`, then `updateDirectionSupport()` and
`digitalWrite(escPin, LOW)`. -/
def initState : EscState :=
  updateDirectionSupport
    { escPin := 5, protocol := "PWM", throttleValue := 1000,
      escArmed := false, direction := "FORWARD", directionSupported := false,
      pinLevel := false }

/-- The body of a `POST /api/config` request: the optional `"pin"` and
`"protocol"` JSON keys. -/
structure ConfigReq where
  pin : Option Int
  protocol : Option String
deriving DecidableEq, Repr

/-- The `"pin"` branch of `handleSetConfig`: accept `0 <= pin <= 39`
(reconfiguring the pin and driving it LOW), otherwise leave state unchanged. -/
def applyPin (s : EscState) (pin : Option Int) : EscState :=
  match pin with
  | none => s
  | some newPin =>
    if 0 ≤ newPin ∧ newPin ≤ 39 then
      { s with escPin := newPin, pinLevel := false }
    else s

/-- The `"protocol"` branch of `handleSetConfig`: accept only the four
recognized names, then rerun `updateDirectionSupport()`. -/
def applyProtocol (s : EscState) (pr : Option String) : EscState :=
  match pr with
  | none => s
  | some newProtocol =>
    if newProtocol = "PWM" ∨ newProtocol = "DSHOT150" ∨
        newProtocol = "DSHOT300" ∨ newProtocol = "DSHOT600" then
      updateDirectionSupport { s with protocol := newProtocol }
    else s

/-- `handleSetConfig`: with no body, reply 400; otherwise process the `pin`
key then the `protocol` key and reply 200 ok unconditionally. -/
def handleSetConfig (s : EscState) (body : Option ConfigReq) :
    EscState × Resp :=
  match body with
  | none => (s, Resp.badRequest)
  | some req => (applyProtocol (applyPin s req.pin) req.protocol, Resp.ok)

/-- `handleSetThrottle`: with no body, reply 400; with a body lacking the
`value` key, reply 200 without change; with a value, constrain it to
[1000,2000] under PWM and [0,2047] otherwise, store it, and reply 200. -/
def handleSetThrottle (s : EscState) (body : Option (Option Int)) :
    EscState × Resp :=
  match body with
  | none => (s, Resp.badRequest)
  | some none => (s, Resp.ok)
  | some (some value) =>
    if s.protocol = "PWM" then
      ({ s with throttleValue := constrain value 1000 2000 }, Resp.ok)
    else
      ({ s with throttleValue := constrain value 0 2047 }, Resp.ok)

/-- `handleArm`: set `escArmed = true` and reset the throttle to the
protocol's idle value (PWM: 1000, otherwise 48). -/
def handleArm (s : EscState) : EscState × Resp :=
  ({ s with escArmed := true,
            throttleValue := if s.protocol = "PWM" then 1000 else 48 },
   Resp.ok)

/-- `handleDisarm`: set `escArmed = false`, `throttleValue = 0`, and
`digitalWrite(escPin, LOW)`. -/
def handleDisarm (s : EscState) : EscState × Resp :=
  ({ s with escArmed := false, throttleValue := 0, pinLevel := false },
   Resp.ok)

/-- DShot bit-period constant for DShot150, in nanoseconds. -/
def DSHOT150_BIT_TIME : Nat := 6667

/-- DShot bit-period constant for DShot300, in nanoseconds. -/
def DSHOT300_BIT_TIME : Nat := 3333

/-- DShot bit-period constant for DShot600, in nanoseconds. -/
def DSHOT600_BIT_TIME : Nat := 1667

/-- Step 2 of `sendDShot`: the 4-bit checksum loop
`for (i = 0; i < 3; i++) { crc ^= (temp & 0xF); temp >>= 4; }`,
carried out on the loop state `(crc, temp)`. -/
def sendDShotChecksum (packet : Nat) : Nat :=
  ((List.range 3).foldl
    (fun st _ => (st.1 ^^^ (st.2 &&& 0xF), st.2 >>> 4)) ((0 : Nat), packet)).1

/-- Steps 1-2 of `sendDShot`: `uint16_t packet = (value << 1)` followed by
`packet |= (crc << 12)`. The `% 65536` are the `uint16_t` truncations. -/
def sendDShotPacket (value : Nat) : Nat :=
  let packet := (value <<< 1) % 65536
  let crc := sendDShotChecksum packet
  (packet ||| (crc <<< 12)) % 65536

/-- Step 3 of `sendDShot`: the bit period chosen from the protocol name
(default DShot150). -/
def bitTimeFor (protocol : String) : Nat :=
  if protocol = "DSHOT300" then DSHOT300_BIT_TIME
  else if protocol = "DSHOT600" then DSHOT600_BIT_TIME
  else DSHOT150_BIT_TIME

/-- `int highTime1 = bitTime * DSHOT_HIGH_RATIO / 1000` with
`DSHOT_HIGH_RATIO = 0.75 = 3/4`. The double arithmetic of the source is
exact on `bitTime * 0.75` and its truncation to `int` equals the rational
floor, which is this natural-number division. -/
def highTime1 (bitTime : Nat) : Nat := bitTime * 3 / 4 / 1000

/-- `int lowTime1 = bitTime - highTime1`. -/
def lowTime1 (bitTime : Nat) : Nat := bitTime - highTime1 bitTime

/-- `int highTime0 = bitTime * DSHOT_LOW_RATIO / 1000` with
`DSHOT_LOW_RATIO = 0.375 = 3/8`, modelled like `highTime1`. -/
def highTime0 (bitTime : Nat) : Nat := bitTime * 3 / 8 / 1000

/-- `int lowTime0 = bitTime - highTime0`. -/
def lowTime0 (bitTime : Nat) : Nat := bitTime - highTime0 bitTime

/-- `sendDShotCommand(command)`: nothing unless the protocol name starts with
`DSHOT`; otherwise ten iterations of `sendDShot(command); delay(1);`. -/
def sendDShotCommand (s : EscState) (command : Int) : List Emission :=
  if startsWithDSHOT s.protocol then
    (List.range 10).flatMap
      (fun _ => [Emission.dshot command, Emission.delayMs 1])
  else []

/-- `handleSetDirection`: reject with 400 when `directionSupported` is false,
when the body is missing, when the `direction` key is missing, or when the
name is not one of the three recognized ones; otherwise store the direction
and, for FORWARD/REVERSE, transmit DShot command 20/21 via
`sendDShotCommand`. -/
def handleSetDirection (s : EscState) (body : Option (Option String)) :
    EscState × Resp × List Emission :=
  if s.directionSupported then
    match body with
    | none => (s, Resp.badRequest, [])
    | some none => (s, Resp.badRequest, [])
    | some (some newDirection) =>
      if newDirection = "FORWARD" ∨ newDirection = "REVERSE" ∨
          newDirection = "BRAKE" then
        let s' := { s with direction := newDirection }
        let ems :=
          if newDirection = "FORWARD" then sendDShotCommand s' 20
          else if newDirection = "REVERSE" then sendDShotCommand s' 21
          else []
        (s', Resp.ok, ems)
      else (s, Resp.badRequest, [])
  else (s, Resp.badRequest, [])

/-- `handleBrake`: reject with 400 when `directionSupported` is false or the
system is disarmed; otherwise set `direction = "BRAKE"`, zero the throttle,
and transmit DShot command 0 (motor stop). -/
def handleBrake (s : EscState) : EscState × Resp × List Emission :=
  if s.directionSupported then
    if s.escArmed then
      let s' := { s with direction := "BRAKE", throttleValue := 0 }
      (s', Resp.ok, sendDShotCommand s' 0)
    else (s, Resp.badRequest, [])
  else (s, Resp.badRequest, [])

/-- One signal-generation tick of `loop()`: when `escArmed && throttleValue
> 0`, dispatch on the protocol name to `sendPWM` or `sendDShot`; otherwise
emit nothing. -/
def loopTick (s : EscState) : Option Emission :=
  if s.escArmed = true ∧ 0 < s.throttleValue then
    if s.protocol = "PWM" then some (Emission.pwm s.throttleValue)
    else if startsWithDSHOT s.protocol then
      some (Emission.dshot s.throttleValue)
    else none
  else none

/-- The states reachable from the boot state through any sequence of API
operations (configure, set-throttle, arm, disarm, set-direction, brake). -/
inductive Reachable : EscState → Prop where
  | init : Reachable initState
  | cfg {s} (body : Option ConfigReq) :
      Reachable s → Reachable (handleSetConfig s body).1
  | thr {s} (body : Option (Option Int)) :
      Reachable s → Reachable (handleSetThrottle s body).1
  | arm {s} : Reachable s → Reachable (handleArm s).1
  | dis {s} : Reachable s → Reachable (handleDisarm s).1
  | dir {s} (body : Option (Option String)) :
      Reachable s → Reachable (handleSetDirection s body).1
  | brk {s} : Reachable s → Reachable (handleBrake s).1

@[simp]
lemma startsWithDSHOT_pwm : startsWithDSHOT "PWM" = false := by decide

@[simp]
lemma startsWithDSHOT_150 : startsWithDSHOT "DSHOT150" = true := by decide

@[simp]
lemma startsWithDSHOT_300 : startsWithDSHOT "DSHOT300" = true := by decide

@[simp]
lemma startsWithDSHOT_600 : startsWithDSHOT "DSHOT600" = true := by decide

/-- The value of Arduino `constrain` stays between its bounds. -/
lemma constrain_mem (v lo hi : Int) (h : lo ≤ hi) :
    lo ≤ constrain v lo hi ∧ constrain v lo hi ≤ hi := by
  simp only [constrain]
  split
  · omega
  · split <;> omega

/-- The state invariant maintained by every handler: the protocol is one of
the four recognized names, `directionSupported` agrees with the
`startsWith("DSHOT")` test, the direction is FORWARD whenever the protocol
is PWM, and the stored throttle lies in [0, 2047]. -/
def Inv (s : EscState) : Prop :=
  (s.protocol = "PWM" ∨ s.protocol = "DSHOT150" ∨
    s.protocol = "DSHOT300" ∨ s.protocol = "DSHOT600") ∧
  s.directionSupported = startsWithDSHOT s.protocol ∧
  (s.protocol = "PWM" → s.direction = "FORWARD") ∧
  0 ≤ s.throttleValue ∧ s.throttleValue ≤ 2047

lemma inv_initState : Inv initState := by
  constructor
  · left; rfl
  · refine ⟨rfl, fun _ => rfl, ?_, ?_⟩ <;> decide

lemma inv_applyPin (s : EscState) (pin : Option Int) (h : Inv s) :
    Inv (applyPin s pin) := by
  cases pin with
  | none => exact h
  | some p =>
    simp only [applyPin]
    split
    · obtain ⟨h1, h2, h3, h4⟩ := h
      exact ⟨h1, h2, h3, h4⟩
    · exact h

lemma inv_applyProtocol (s : EscState) (pr : Option String) (h : Inv s) :
    Inv (applyProtocol s pr) := by
  obtain ⟨h1, h2, h3, h4, h5⟩ := h
  cases pr with
  | none => exact ⟨h1, h2, h3, h4, h5⟩
  | some p =>
    simp only [applyProtocol]
    split
    · rename_i hv
      rcases hv with hv | hv | hv | hv <;> subst hv <;>
        simp [Inv, updateDirectionSupport] <;> exact ⟨h4, h5⟩
    · exact ⟨h1, h2, h3, h4, h5⟩

lemma inv_handleSetConfig (s : EscState) (body : Option ConfigReq)
    (h : Inv s) : Inv (handleSetConfig s body).1 := by
  cases body with
  | none => exact h
  | some req => exact inv_applyProtocol _ _ (inv_applyPin _ _ h)

lemma inv_handleSetThrottle (s : EscState) (body : Option (Option Int))
    (h : Inv s) : Inv (handleSetThrottle s body).1 := by
  obtain ⟨h1, h2, h3, h4, h5⟩ := h
  cases body with
  | none => exact ⟨h1, h2, h3, h4, h5⟩
  | some v =>
    cases v with
    | none => exact ⟨h1, h2, h3, h4, h5⟩
    | some value =>
      simp only [handleSetThrottle]
      split
      · have hc := constrain_mem value 1000 2000 (by omega)
        exact ⟨h1, h2, h3, le_trans (by omega) hc.1, le_trans hc.2 (by omega)⟩
      · have hc := constrain_mem value 0 2047 (by omega)
        exact ⟨h1, h2, h3, hc.1, hc.2⟩

lemma inv_handleArm (s : EscState) (h : Inv s) : Inv (handleArm s).1 := by
  obtain ⟨h1, h2, h3, h4, h5⟩ := h
  refine ⟨h1, h2, h3, ?_, ?_⟩ <;> simp only [handleArm] <;> split <;> omega

lemma inv_handleDisarm (s : EscState) (h : Inv s) :
    Inv (handleDisarm s).1 := by
  obtain ⟨h1, h2, h3, h4, h5⟩ := h
  exact ⟨h1, h2, h3, by simp [handleDisarm], by simp [handleDisarm]⟩

/-- In any state satisfying the invariant, `directionSupported = true`
forces the protocol to be a non-PWM (DShot) name. -/
lemma protocol_not_pwm_of_dirSupported (s : EscState) (h : Inv s)
    (hd : s.directionSupported = true) : s.protocol ≠ "PWM" := by
  intro hp
  rw [h.2.1, hp] at hd
  simp at hd

lemma inv_handleSetDirection (s : EscState) (body : Option (Option String))
    (h : Inv s) : Inv (handleSetDirection s body).1 := by
  obtain ⟨h1, h2, h3, h4, h5⟩ := h
  simp only [handleSetDirection]
  split
  · rename_i hsup
    split
    · exact ⟨h1, h2, h3, h4, h5⟩
    · exact ⟨h1, h2, h3, h4, h5⟩
    · split
      · refine ⟨h1, h2, ?_, h4, h5⟩
        intro hp
        exact absurd hp (protocol_not_pwm_of_dirSupported s
          ⟨h1, h2, h3, h4, h5⟩ hsup)
      · exact ⟨h1, h2, h3, h4, h5⟩
  · exact ⟨h1, h2, h3, h4, h5⟩

lemma inv_handleBrake (s : EscState) (h : Inv s) : Inv (handleBrake s).1 := by
  obtain ⟨h1, h2, h3, h4, h5⟩ := h
  simp only [handleBrake]
  split
  · rename_i hsup
    split
    · refine ⟨h1, h2, ?_, le_refl 0, show (0 : Int) ≤ 2047 by omega⟩
      intro hp
      exact absurd hp (protocol_not_pwm_of_dirSupported s
        ⟨h1, h2, h3, h4, h5⟩ hsup)
    · exact ⟨h1, h2, h3, h4, h5⟩
  · exact ⟨h1, h2, h3, h4, h5⟩

/-- Every reachable state satisfies the invariant. -/
lemma inv_of_reachable {s : EscState} (h : Reachable s) : Inv s := by
  induction h with
  | init => exact inv_initState
  | cfg body _ ih => exact inv_handleSetConfig _ body ih
  | thr body _ ih => exact inv_handleSetThrottle _ body ih
  | arm _ ih => exact inv_handleArm _ ih
  | dis _ ih => exact inv_handleDisarm _ ih
  | dir body _ ih => exact inv_handleSetDirection _ body ih
  | brk _ ih => exact inv_handleBrake _ ih

/-- C1: a control-loop tick invokes `sendPWM` or `sendDShot(throttleValue)`
only when `escArmed = true` and `throttleValue > 0`; whenever the system is
disarmed or the throttle is not positive, the tick emits nothing, so no
throttle signal is ever transmitted while disarmed. -/
theorem loop_emits_only_when_armed :
    ∀ s : EscState,
      ((s.escArmed = false ∨ s.throttleValue ≤ 0) → loopTick s = none) ∧
      (∀ e : Emission, loopTick s = some e →
        s.escArmed = true ∧ 0 < s.throttleValue) := by
  intro s
  constructor
  · intro h
    simp only [loopTick]
    rw [if_neg]
    rintro ⟨ha, ht⟩
    rcases h with h | h
    · rw [h] at ha
      cases ha
    · omega
  · intro e he
    by_cases h : s.escArmed = true ∧ 0 < s.throttleValue
    · exact h
    · simp only [loopTick, if_neg h] at he
      cases he

/-- C1 witness: in the boot state (disarmed) the tick emits nothing. -/
theorem loop_emits_only_when_armed_witness : loopTick initState = none :=
  (loop_emits_only_when_armed initState).1 (Or.inl (by decide))

/-- C2 counterexample: after `disarm()` from the boot state (a reachable
state whose protocol is PWM) the stored throttle is 0, outside the PWM range
[1000, 2000], so the claimed invariant fails as stated. -/
theorem throttle_range_counterexample :
    Reachable (handleDisarm initState).1 ∧
    (handleDisarm initState).1.protocol = "PWM" ∧
    ¬ (1000 ≤ (handleDisarm initState).1.throttleValue ∧
       (handleDisarm initState).1.throttleValue ≤ 2000) :=
  ⟨Reachable.dis Reachable.init, by decide, by decide⟩

/-- C2 (amended): in every reachable state the stored throttle lies in
[0, 2047] — the DShot range always holds; under PWM only this weaker bound
holds, since `disarm`/`brake` store 0 and a protocol switch keeps the old
value. -/
theorem throttle_range_amended :
    ∀ s : EscState, Reachable s →
      0 ≤ s.throttleValue ∧ s.throttleValue ≤ 2047 :=
  fun _ h => ⟨(inv_of_reachable h).2.2.2.1, (inv_of_reachable h).2.2.2.2⟩

/-- C2 witness: the bound evaluated in the boot state. -/
theorem throttle_range_amended_witness :
    0 ≤ initState.throttleValue ∧ initState.throttleValue ≤ 2047 :=
  throttle_range_amended initState Reachable.init

/-- Arduino `constrain` returns the lower bound below the range. -/
lemma constrain_of_lt {v lo hi : Int} (h : v < lo) : constrain v lo hi = lo :=
  if_pos h

/-- Arduino `constrain` returns the upper bound above the range. -/
lemma constrain_of_gt {v lo hi : Int} (hlo : lo ≤ hi) (h : hi < v) :
    constrain v lo hi = hi := by
  simp only [constrain]
  rw [if_neg (by omega), if_pos (by omega)]

/-- C6: `handleSetThrottle` always replies ok and stores the value clamped
to the active protocol's range: `constrain value 1000 2000` under PWM and
`constrain value 0 2047` under any DShot variant; values outside the range
are stored as the nearest bound. -/
theorem setThrottle_clamps :
    ∀ (s : EscState) (v : Int),
      (handleSetThrottle s (some (some v))).2 = Resp.ok ∧
      (s.protocol = "PWM" →
        (handleSetThrottle s (some (some v))).1.throttleValue =
          constrain v 1000 2000 ∧
        (v < 1000 →
          (handleSetThrottle s (some (some v))).1.throttleValue = 1000) ∧
        (2000 < v →
          (handleSetThrottle s (some (some v))).1.throttleValue = 2000)) ∧
      ((s.protocol = "DSHOT150" ∨ s.protocol = "DSHOT300" ∨
          s.protocol = "DSHOT600") →
        (handleSetThrottle s (some (some v))).1.throttleValue =
          constrain v 0 2047 ∧
        (v < 0 →
          (handleSetThrottle s (some (some v))).1.throttleValue = 0) ∧
        (2047 < v →
          (handleSetThrottle s (some (some v))).1.throttleValue = 2047)) := by
  intro s v
  refine ⟨?_, ?_, ?_⟩
  · simp only [handleSetThrottle]
    split <;> rfl
  · intro hp
    have e : (handleSetThrottle s (some (some v))).1.throttleValue =
        constrain v 1000 2000 := by
      simp only [handleSetThrottle, if_pos hp]
    refine ⟨e, fun h => ?_, fun h => ?_⟩
    · rw [e, constrain_of_lt h]
    · rw [e, constrain_of_gt (by omega) h]
  · intro hp
    have hne : ¬ s.protocol = "PWM" := by
      rcases hp with h | h | h <;> rw [h] <;> decide
    have e : (handleSetThrottle s (some (some v))).1.throttleValue =
        constrain v 0 2047 := by
      simp only [handleSetThrottle, if_neg hne]
    refine ⟨e, fun h => ?_, fun h => ?_⟩
    · rw [e, constrain_of_lt h]
    · rw [e, constrain_of_gt (by omega) h]

/-- C6 witness: the spec's concrete examples — `setThrottle(500)` under PWM
stores 1000, `setThrottle(5000)` stores 2000; `setThrottle(-10)` under
DShot300 stores 0, `setThrottle(9999)` stores 2047. -/
theorem setThrottle_clamps_witness :
    (handleSetThrottle initState (some (some 500))).1.throttleValue = 1000 ∧
    (handleSetThrottle initState (some (some 5000))).1.throttleValue = 2000 ∧
    (handleSetThrottle ⟨5, "DSHOT300", 48, false, "FORWARD", true, false⟩
      (some (some (-10)))).1.throttleValue = 0 ∧
    (handleSetThrottle ⟨5, "DSHOT300", 48, false, "FORWARD", true, false⟩
      (some (some 9999))).1.throttleValue = 2047 :=
  ⟨((setThrottle_clamps initState 500).2.1 (by decide)).2.1 (by decide),
   ((setThrottle_clamps initState 5000).2.1 (by decide)).2.2 (by decide),
   ((setThrottle_clamps _ (-10)).2.2 (by decide)).2.1 (by decide),
   ((setThrottle_clamps _ 9999).2.2 (by decide)).2.2 (by decide)⟩

/-- C7 counterexample: `configure(pin = 99)` from the boot state leaves the
state unchanged but replies 200 ok — no validation failure is reported to
the caller, refuting the claim as stated. -/
theorem config_report_counterexample :
    (handleSetConfig initState (some ⟨some 99, none⟩)).1 = initState ∧
    (handleSetConfig initState (some ⟨some 99, none⟩)).2 = Resp.ok ∧
    Resp.ok ≠ Resp.badRequest :=
  ⟨by decide, rfl, by decide⟩

/-- C7 (amended): a configure request whose present fields are all invalid
(pin outside [0, 39] if present, protocol not one of the four names if
present) leaves every state field unchanged and replies 200 ok — the
rejection is only logged, never surfaced to the caller, and no fatal error
is raised. (A valid field accompanying an invalid one is still applied.) -/
theorem config_invalid_leaves_state :
    ∀ (s : EscState) (req : ConfigReq),
      (∀ p : Int, req.pin = some p → ¬ (0 ≤ p ∧ p ≤ 39)) →
      (∀ pr : String, req.protocol = some pr →
        ¬ (pr = "PWM" ∨ pr = "DSHOT150" ∨ pr = "DSHOT300" ∨
            pr = "DSHOT600")) →
      (handleSetConfig s (some req)).1 = s ∧
      (handleSetConfig s (some req)).2 = Resp.ok := by
  intro s req hp hpr
  have e1 : applyPin s req.pin = s := by
    cases hv : req.pin with
    | none => rfl
    | some p =>
      simp only [applyPin]
      rw [if_neg (hp p hv)]
  have e2 : applyProtocol s req.protocol = s := by
    cases hv : req.protocol with
    | none => rfl
    | some pr =>
      simp only [applyProtocol]
      rw [if_neg (hpr pr hv)]
  exact ⟨by show applyProtocol (applyPin s req.pin) req.protocol = s;
            rw [e1, e2], rfl⟩

/-- C7 witness: a request with pin 99 and protocol "DSHOT900" changes
nothing and replies ok. -/
theorem config_invalid_leaves_state_witness :
    (handleSetConfig initState (some ⟨some 99, some "DSHOT900"⟩)).1 =
      initState ∧
    (handleSetConfig initState (some ⟨some 99, some "DSHOT900"⟩)).2 =
      Resp.ok :=
  config_invalid_leaves_state initState ⟨some 99, some "DSHOT900"⟩
    (fun p hp => by injection hp with h; subst h; decide)
    (fun pr hpr => by injection hpr with h; subst h; decide)

/-- C8: `handleDisarm` always clears the armed flag, zeroes the throttle,
drives the pin LOW in the handler itself (synchronously, before any loop
tick), and is idempotent. -/
theorem disarm_safe_idempotent :
    ∀ s : EscState,
      (handleDisarm s).1.escArmed = false ∧
      (handleDisarm s).1.throttleValue = 0 ∧
      (handleDisarm s).1.pinLevel = false ∧
      (handleDisarm (handleDisarm s).1).1 = (handleDisarm s).1 :=
  fun _ => ⟨rfl, rfl, rfl, rfl⟩

/-- FrameEncoder checksum as worded by the specification: XOR of the three
low nibbles of the packet (the low nibble, the nibble after a right shift
by 4, and the nibble after a further right shift by 4, i.e. a shift by 8). -/
def specChecksum (packet : Nat) : Nat :=
  (packet &&& 0xF) ^^^ ((packet >>> 4) &&& 0xF) ^^^ ((packet >>> 8) &&& 0xF)

/-- FrameEncoder as worded by the specification: `packet = value << 1`
(telemetry bit 0), with the 4-bit checksum OR-ed into bits 15-12. -/
def specFrame (value : Nat) : Nat :=
  (value <<< 1) ||| (specChecksum (value <<< 1) <<< 12)

/-- The loop of the source checksum computes exactly the three-nibble XOR
fold of the spec. -/
lemma sendDShotChecksum_eq (p : Nat) : sendDShotChecksum p = specChecksum p := by
  show 0 ^^^ (p &&& 0xF) ^^^ (p >>> 4 &&& 0xF) ^^^ (p >>> 4 >>> 4 &&& 0xF) = _
  rw [Nat.zero_xor, ← Nat.shiftRight_add]
  rfl

/-- The spec checksum is a 4-bit quantity. -/
lemma specChecksum_lt (p : Nat) : specChecksum p < 16 := by
  have h16 : (16 : Nat) = 2 ^ 4 := by norm_num
  have h1 : p &&& 0xF < 2 ^ 4 :=
    lt_of_le_of_lt Nat.and_le_right (by norm_num)
  have h2 : p >>> 4 &&& 0xF < 2 ^ 4 :=
    lt_of_le_of_lt Nat.and_le_right (by norm_num)
  have h3 : p >>> 8 &&& 0xF < 2 ^ 4 :=
    lt_of_le_of_lt Nat.and_le_right (by norm_num)
  rw [specChecksum, h16]
  exact Nat.xor_lt_two_pow (Nat.xor_lt_two_pow h1 h2) h3

/-- For values up to 2047, the encoded frame splits additively: the checksum
occupies the top nibble (weight 4096) and the shifted value the low 12
bits. -/
lemma sendDShotPacket_decomp (v : Nat) (hv : v ≤ 2047) :
    sendDShotPacket v = 4096 * specChecksum (v <<< 1) + v <<< 1 := by
  have hshift : v <<< 1 = v * 2 := by
    rw [Nat.shiftLeft_eq]
  have hp : v <<< 1 < 4096 := by omega
  have hp2 : v <<< 1 < 2 ^ 12 := by
    rw [show (2 : Nat) ^ 12 = 4096 by norm_num]
    exact hp
  have hc : specChecksum (v <<< 1) < 16 := specChecksum_lt _
  show ((v <<< 1) % 65536 |||
      sendDShotChecksum ((v <<< 1) % 65536) <<< 12) % 65536 = _
  rw [Nat.mod_eq_of_lt (by omega : v <<< 1 < 65536), sendDShotChecksum_eq,
    Nat.lor_comm, Nat.shiftLeft_eq,
    Nat.mul_comm (specChecksum (v <<< 1)) (2 ^ 12),
    ← Nat.mul_add_lt_is_or hp2 (specChecksum (v <<< 1)),
    show (2 : Nat) ^ 12 = 4096 by norm_num]
  exact Nat.mod_eq_of_lt (by omega)

/-- C3: for every value in [0, 2047] the frame encoder computes
`packet = value << 1` with telemetry bit 0, XOR-folds the three low nibbles
of the packet into a 4-bit checksum, and ORs it into bits 15-12 of the
frame — i.e. it agrees with the frame described by the spec's words; for
value 0 the top nibble is 0. The encoder is a pure Lean function, hence
deterministic by construction. -/
theorem frame_encoder_spec :
    ∀ value : Nat, value ≤ 2047 →
      sendDShotPacket value = specFrame value ∧
      sendDShotChecksum ((value <<< 1) % 65536) < 16 ∧
      sendDShotPacket value >>> 12 = specChecksum (value <<< 1) ∧
      sendDShotPacket value % 4096 = value <<< 1 ∧
      sendDShotPacket 0 >>> 12 = 0 := by
  intro v hv
  have hshift : v <<< 1 = v * 2 := by
    rw [Nat.shiftLeft_eq]
  have hp : v <<< 1 < 4096 := by omega
  have hc : specChecksum (v <<< 1) < 16 := specChecksum_lt _
  have hd := sendDShotPacket_decomp v hv
  refine ⟨?_, ?_, ?_, ?_, by decide⟩
  · show ((v <<< 1) % 65536 |||
        sendDShotChecksum ((v <<< 1) % 65536) <<< 12) % 65536 = _
    rw [Nat.mod_eq_of_lt (by omega : v <<< 1 < 65536), sendDShotChecksum_eq]
    refine Nat.mod_eq_of_lt (Nat.or_lt_two_pow
      (show v <<< 1 < 2 ^ 16 by norm_num; omega) ?_)
    rw [Nat.shiftLeft_eq]
    have h12 : (2 : Nat) ^ 12 = 4096 := by norm_num
    have h16 : (2 : Nat) ^ 16 = 65536 := by norm_num
    omega
  · rw [sendDShotChecksum_eq]
    exact specChecksum_lt _
  · rw [hd, Nat.shiftRight_eq_div_pow]
    have : (2 : Nat) ^ 12 = 4096 := by norm_num
    rw [this]
    omega
  · rw [hd]
    omega

/-- C3 witness: the spec's reference value 2047. -/
theorem frame_encoder_spec_witness :
    sendDShotPacket 2047 = specFrame 2047 ∧
    sendDShotPacket 2047 >>> 12 = specChecksum (2047 <<< 1) :=
  ⟨(frame_encoder_spec 2047 (by decide)).1,
   (frame_encoder_spec 2047 (by decide)).2.2.1⟩

/-- C4: the claimed frame layout (value in bits [15:5], telemetry flag in
bit [4], CRC in bits [3:0]) — which matches the code's own comments and the
standard DShot frame — is NOT what the code builds: `sendDShot` computes
`packet = value << 1; packet |= crc << 12`, so the value sits in bits
[11:1], the telemetry bit in bit [0], and the CRC in bits [15:12].
Evaluated at value 1 the frame is 0x2002, whose bits [15:5] hold 256, not
1; at value 8 bit [4] is 1, not the claimed constant 0; at value 16 bits
[3:0] are 0 while the CRC is 2. -/
theorem frame_layout_bug :
    sendDShotPacket 1 = 8194 ∧
    (sendDShotPacket 1 >>> 5) &&& 2047 ≠ 1 ∧
    (sendDShotPacket 8 >>> 4) &&& 1 ≠ 0 ∧
    sendDShotPacket 16 &&& 0xF ≠ sendDShotChecksum ((16 <<< 1) % 65536) := by
  refine ⟨by decide, by decide, by decide, by decide⟩

/-- C5: the computed per-bit durations do not realize the protocol timing.
`highTime1`/`highTime0` are converted to microseconds (for
`delayMicroseconds`), but `lowTime1 = bitTime - highTime1` subtracts
microseconds from a nanosecond constant and the result is also delayed in
microseconds: a DShot150 logic-1 bit is HIGH 5 us then LOW 6662 us, i.e.
6667000 ns in total, not the 6667 ns bit period; and for DShot600 a logic-0
bit has `highTime0 = 0`, no HIGH pulse at all instead of 37.5% of the
period. -/
theorem dshot_timing_bug :
    bitTimeFor "DSHOT150" = 6667 ∧
    bitTimeFor "DSHOT300" = 3333 ∧
    bitTimeFor "DSHOT600" = 1667 ∧
    highTime1 DSHOT150_BIT_TIME = 5 ∧
    lowTime1 DSHOT150_BIT_TIME = 6662 ∧
    (highTime1 DSHOT150_BIT_TIME + lowTime1 DSHOT150_BIT_TIME) * 1000 =
      6667000 ∧
    (highTime1 DSHOT150_BIT_TIME + lowTime1 DSHOT150_BIT_TIME) * 1000 ≠
      DSHOT150_BIT_TIME ∧
    highTime0 DSHOT600_BIT_TIME = 0 ∧
    highTime0 DSHOT600_BIT_TIME * 1000 * 8 ≠ DSHOT600_BIT_TIME * 3 := by
  refine ⟨by decide, by decide, by decide, by decide, by decide, by decide,
    by decide, by decide, by decide⟩

/-- C9: in every reachable state `directionSupported = true` exactly when
the active protocol is a DShot variant, and under PWM the direction is
FORWARD; moreover any configure request that switches the protocol to PWM
forces `direction = "FORWARD"` and `directionSupported = false`, whatever
the previous direction was. -/
theorem direction_support_invariant :
    (∀ s : EscState, Reachable s →
      ((s.directionSupported = true ↔
        (s.protocol = "DSHOT150" ∨ s.protocol = "DSHOT300" ∨
          s.protocol = "DSHOT600")) ∧
        (s.protocol = "PWM" → s.direction = "FORWARD"))) ∧
    (∀ (s : EscState) (req : ConfigReq), req.protocol = some "PWM" →
      (handleSetConfig s (some req)).1.direction = "FORWARD" ∧
      (handleSetConfig s (some req)).1.directionSupported = false) := by
  constructor
  · intro s hr
    obtain ⟨h1, h2, h3, _, _⟩ := inv_of_reachable hr
    refine ⟨⟨fun hd => ?_, fun hd => ?_⟩, h3⟩
    · rcases h1 with h | h | h | h
      · rw [h2, h] at hd
        simp at hd
      · exact Or.inl h
      · exact Or.inr (Or.inl h)
      · exact Or.inr (Or.inr h)
    · rw [h2]
      rcases hd with h | h | h <;> rw [h] <;> decide
  · intro s req h
    show (applyProtocol (applyPin s req.pin) req.protocol).direction = _ ∧
      (applyProtocol (applyPin s req.pin) req.protocol).directionSupported =
        false
    rw [h]
    simp only [applyProtocol]
    simp [updateDirectionSupport]

/-- C9 witness: the boot state, and a configure request that carries
protocol "PWM" applied to a DShot300 state with direction REVERSE. -/
theorem direction_support_invariant_witness :
    (initState.directionSupported = true ↔
      (initState.protocol = "DSHOT150" ∨ initState.protocol = "DSHOT300" ∨
        initState.protocol = "DSHOT600")) ∧
    (handleSetConfig ⟨5, "DSHOT300", 48, false, "REVERSE", true, false⟩
      (some ⟨none, some "PWM"⟩)).1.direction = "FORWARD" ∧
    (handleSetConfig ⟨5, "DSHOT300", 48, false, "REVERSE", true, false⟩
      (some ⟨none, some "PWM"⟩)).1.directionSupported = false :=
  ⟨(direction_support_invariant.1 initState Reachable.init).1,
   (direction_support_invariant.2 _ ⟨none, some "PWM"⟩ rfl).1,
   (direction_support_invariant.2 _ ⟨none, some "PWM"⟩ rfl).2⟩

/-- C10: from any reachable state with `directionSupported = true`, setting
the direction to FORWARD (resp. REVERSE) stores that direction and changes
no other state field, and transmits the DShot special command 20 (resp. 21)
exactly ten times with a 1 ms gap after each transmission; no armed check is
involved, so this happens even while disarmed. -/
theorem setDirection_command_burst :
    ∀ s : EscState, Reachable s → s.directionSupported = true →
      ∀ (nd : String) (cmd : Int),
        ((nd = "FORWARD" ∧ cmd = 20) ∨ (nd = "REVERSE" ∧ cmd = 21)) →
        (handleSetDirection s (some (some nd))).1.direction = nd ∧
        (handleSetDirection s (some (some nd))).1.escPin = s.escPin ∧
        (handleSetDirection s (some (some nd))).1.protocol = s.protocol ∧
        (handleSetDirection s (some (some nd))).1.escArmed = s.escArmed ∧
        (handleSetDirection s (some (some nd))).1.throttleValue =
          s.throttleValue ∧
        (handleSetDirection s (some (some nd))).1.directionSupported =
          s.directionSupported ∧
        (handleSetDirection s (some (some nd))).2.1 = Resp.ok ∧
        (handleSetDirection s (some (some nd))).2.2 =
          (List.replicate 10
            [Emission.dshot cmd, Emission.delayMs 1]).flatten := by
  intro s hr hd nd cmd hcase
  have hsw : startsWithDSHOT s.protocol = true := by
    have h2 := (inv_of_reachable hr).2.1
    rw [h2] at hd
    exact hd
  rcases hcase with ⟨hnd, hcmd⟩ | ⟨hnd, hcmd⟩ <;> subst hnd <;> subst hcmd <;>
    simp [handleSetDirection, hd, sendDShotCommand, hsw] <;> rfl

/-- C10 witness: a reachable DShot300 state (boot state after
`configure(protocol = "DSHOT300")`), direction REVERSE. -/
theorem setDirection_command_burst_witness :
    (handleSetDirection
      (handleSetConfig initState (some ⟨none, some "DSHOT300"⟩)).1
      (some (some "REVERSE"))).2.2 =
    (List.replicate 10 [Emission.dshot 21, Emission.delayMs 1]).flatten :=
  (setDirection_command_burst _
    (Reachable.cfg (some ⟨none, some "DSHOT300"⟩) Reachable.init)
    (by decide) "REVERSE" 21 (Or.inr ⟨rfl, rfl⟩)).2.2.2.2.2.2.2

end MotorTester
